import Mathlib

/-!
Verification of the mega-download repository (Python) against its
natural-language specification.  The Python sources are shallowly embedded:
pure string manipulation is translated to executable Lean functions over
`List Char` / `String`, stateful or effectful code (process spawning, the
transfer polling loop, filesystem moves, destructors) is modelled by explicit
state passing, with the behaviour of the external world (pexpect, the
mega-cmd transfer agent, the IP-changing router) supplied as explicit input
traces.  Python floats are modelled by `ℚ` (the operations involved —
multiplication and division by powers of two — are exact on binary floats,
so `ℚ` is a faithful model for the properties considered here).
-/

/-! ## Python string primitives

Models of the Python `str` methods used by the sources: `in` (substring
test), `split` (on a non-empty separator), `strip`, `replace`.  Python's
`str.strip` strips whitespace; we model the ASCII whitespace characters.
-/

/-- Is `pre` a prefix of `l`? -/
def isPrefixL : List Char → List Char → Bool
  | [], _ => true
  | _ :: _, [] => false
  | a :: as, b :: bs => (a = b) && isPrefixL as bs

/-- Model of Python `sub in s` on the character lists: `sub` occurs as a
contiguous substring of `s` (the empty string occurs in every string). -/
def hasInfixL (sub : List Char) : List Char → Bool
  | [] => isPrefixL sub []
  | c :: cs => isPrefixL sub (c :: cs) || hasInfixL sub cs

/-- If `pre` is a prefix of `l`, the remainder of `l` after `pre`. -/
def dropPre : List Char → List Char → Option (List Char)
  | [], l => some l
  | _ :: _, [] => none
  | a :: as, b :: bs => if a = b then dropPre as bs else none

theorem dropPre_length : ∀ (pre l r : List Char), dropPre pre l = some r → r.length ≤ l.length := by
  intro pre
  induction pre with
  | nil => intro l r h; simp only [dropPre, Option.some.injEq] at h; simp [← h]
  | cons a as ih =>
    intro l r h
    cases l with
    | nil => simp [dropPre] at h
    | cons b bs =>
      simp only [dropPre] at h
      by_cases hab : a = b
      · simp only [hab, if_pos rfl] at h
        exact Nat.le_succ_of_le (ih bs r h)
      · simp [hab] at h

/-- Worker for `pySplit`: splits on the non-empty separator `s0 :: srest`,
scanning left to right (Python `str.split` semantics for a non-empty
separator). `acc` holds the current field, reversed.  The `fuel` argument
makes the recursion structural (each step consumes at least one character,
so `fuel = l.length` never runs out; see `splitSepAux_fuel_irrel`). -/
def splitSepAux (s0 : Char) (srest : List Char) : Nat → List Char → List Char → List (List Char)
  | _, [], acc => [acc.reverse]
  | 0, l, acc => [acc.reverse ++ l]
  | fuel + 1, c :: cs, acc =>
    if s0 = c then
      match dropPre srest cs with
      | some rest => acc.reverse :: splitSepAux s0 srest fuel rest []
      | none => splitSepAux s0 srest fuel cs (c :: acc)
    else splitSepAux s0 srest fuel cs (c :: acc)

theorem splitSepAux_fuel_irrel (s0 : Char) (srest : List Char) :
    ∀ (f g : Nat) (l acc : List Char), l.length ≤ f → l.length ≤ g →
      splitSepAux s0 srest f l acc = splitSepAux s0 srest g l acc := by
  intro f
  induction f using Nat.strong_induction_on with
  | _ f ih =>
    intro g l acc hf hg
    cases l with
    | nil => cases f <;> cases g <;> simp [splitSepAux]
    | cons c cs =>
      cases f with
      | zero => simp at hf
      | succ f' =>
        cases g with
        | zero => simp at hg
        | succ g' =>
          simp only [List.length_cons, Nat.succ_le_succ_iff] at hf hg
          simp only [splitSepAux]
          by_cases hc : s0 = c
          · simp only [if_pos hc]
            cases hm : dropPre srest cs with
            | some rest =>
              have hr := dropPre_length srest cs rest hm
              have h1 : rest.length ≤ f' := le_trans hr hf
              have h2 : rest.length ≤ g' := le_trans hr hg
              dsimp only
              rw [ih f' (Nat.lt_succ_self _) g' rest [] h1 h2]
            | none =>
              dsimp only
              rw [ih f' (Nat.lt_succ_self _) g' cs (c :: acc) hf hg]
          · simp only [if_neg hc]
            rw [ih f' (Nat.lt_succ_self _) g' cs (c :: acc) hf hg]

/-- Model of Python `s.split(sep)` for a non-empty separator.  (The sources
only ever split on the non-empty separators `"\n"` and `"|||"` and `"/"`.) -/
def pySplit (s sep : String) : List String :=
  match sep.toList with
  | [] => [s]
  | c :: cs => (splitSepAux c cs s.toList.length s.toList []).map (fun l => String.mk l)

/-- ASCII whitespace as stripped by Python `str.strip()`. -/
def isPySpace (c : Char) : Bool :=
  (c = ' ') || (c = '\t') || (c = '\n') || (c = '\r') || (c = '\x0b') || (c = '\x0c')

/-- Model of Python `s.strip()`. -/
def pyStrip (s : String) : String :=
  String.mk (((s.toList.dropWhile isPySpace).reverse.dropWhile isPySpace).reverse)

/-- Model of Python `s.replace(pat, rep)` for a non-empty `pat`: replace all
non-overlapping occurrences, scanning left to right.  Implemented as
split-then-join, which agrees with Python for non-empty patterns. -/
def pyReplace (s pat rep : String) : String :=
  String.mk (List.intercalate rep.toList ((pySplit s pat).map (fun t => t.toList)))

/-- Model of Python `sub in s` at the `String` level. -/
def pyIn (sub s : String) : Bool := hasInfixL sub.toList s.toList

/-- Model of Python `s.startswith(pre)`. -/
def pyStartsWith (s pre : String) : Bool := isPrefixL pre.toList s.toList

/-- Model of Python `s.endswith(suf)`. -/
def pyEndsWith (s suf : String) : Bool := isPrefixL suf.toList.reverse s.toList.reverse

/-! ## Core enumerations and error model

`SpawnStatus` and `DownloadStatus` mirror the enums in `spawnhelper.py` and
`megadownload.py`.  `PyError` collects the Python exceptions that the
modelled code can raise: `MegaDownloadException` and `ChangeIpException`
(raised deliberately), `attributeError` and `typeError` (unhandled slips),
and `pexpectExn` (an exception escaping from the pexpect library itself).
-/

inductive SpawnStatus where
  | NO_ERROR
  | TIMEOUT
  | UNEXPECTED_ERROR
deriving DecidableEq, Repr

inductive DownloadStatus where
  | NO_ERROR
  | TIMEOUT_EXCEEDED
  | DOWNLOAD_FAILED
deriving DecidableEq, Repr

inductive PyError where
  | megaDownloadExn
  | changeIpExn
  | attributeError
  | typeError
  | pexpectExn
deriving DecidableEq, Repr

/-! ## Process Runner (`spawnhelper.py`, `SpawnHelper.spawn`)

`pexpect` is external, so its behaviour is an explicit input: either the
`pexpect.spawn(command, ...)` call itself raises (`raisesExn` — e.g. the
command is not found or not executable), or it yields a process handle
whose `read()` either returns the output, raises `pexpect.TIMEOUT`, or
raises some other exception, and whose `exitstatus` after `close()` is an
optional integer (`none` models Python `None`, e.g. a signal-killed child).

In the source, only the `p.read()` call is inside the `try` block; the
`pexpect.spawn(...)` call is outside it, so an exception there propagates
out of `SpawnHelper.spawn` — this is modelled by the `Except.error` result.
-/

inductive ReadResult where
  | ok (output : String)
  | timeoutExn
  | otherExn
deriving DecidableEq, Repr

structure PexpectProc where
  readResult : ReadResult
  exitstatus : Option Int
deriving DecidableEq, Repr

inductive PexpectBehavior where
  | proc (p : PexpectProc)
  | raisesExn
deriving DecidableEq, Repr

namespace SpawnHelper

/-- Model of `SpawnHelper.spawn`: the returned triple is
`(spawn_status, process_exit_code, output)`; an `Except.error` models an
exception escaping the function. -/
def spawn (env : PexpectBehavior) : Except PyError (SpawnStatus × Option Int × String) :=
  match env with
  | .raisesExn => .error .pexpectExn
  | .proc p =>
    match p.readResult with
    | .ok out => .ok (SpawnStatus.NO_ERROR, p.exitstatus, out)
    | .timeoutExn => .ok (SpawnStatus.TIMEOUT, p.exitstatus, "")
    | .otherExn => .ok (SpawnStatus.UNEXPECTED_ERROR, p.exitstatus, "")

end SpawnHelper

/-! ## Transfer-Status Parser (`megadownload.py`, `parse_mega_transfers_output`)

The Python code checks `download_info[1] in valid_states` where
`valid_states` is the single *string*
`"QUEUED|ACTIVE|PAUSED|RETRYING|COMPLETING|COMPLETED|CANCELLED|FAILED"` —
a substring test, not membership in a collection.
-/

namespace MegaCmdHelper

def valid_states : String :=
  "QUEUED|ACTIVE|PAUSED|RETRYING|COMPLETING|COMPLETED|CANCELLED|FAILED"

/-- The body of the per-line loop in `parse_mega_transfers_output`: split the
line on `"|||"`; keep it when it has exactly 3 fields and its second field
occurs in the `valid_states` string. -/
def transfers_line_record (entry : String) : Option (String × String × String) :=
  let download_info := pySplit entry ("|||")
  if download_info.length = 3 && pyIn (download_info.getD 1 ("")) valid_states then
    some (download_info.getD 0 (""), download_info.getD 1 (""), download_info.getD 2 (""))
  else none

/-- Model of `MegaCmdHelper.parse_mega_transfers_output`. -/
def parse_mega_transfers_output (output : String) : List (String × String × String) :=
  let entries := pySplit (pyReplace (pyStrip output) ("\r") ("")) ("\n")
  if entries.length > 1 then
    let start_index := (entries.findIdx? (fun e => pyIn ("|||") e)).getD 0
    let col_name := pySplit (entries.getD start_index ("")) ("|||")
    if col_name.length = 3 && col_name.getD 0 ("") = "DESTINYPATH"
        && col_name.getD 1 ("") = "STATE" && col_name.getD 2 ("") = "PROGRESS" then
      (entries.drop (start_index + 1)).filterMap transfers_line_record
    else []
  else []

end MegaCmdHelper

/-- The eight valid transfer states, as the specification enumerates them. -/
def spec_valid_states : List String :=
  ["QUEUED", "ACTIVE", "PAUSED", "RETRYING", "COMPLETING", "COMPLETED", "CANCELLED", "FAILED"]

/-! ## Size normalization (`megadownload.py`, `list_all_files` /
`get_file_info_from_link`)

Both call sites normalize a parsed `(value, unit)` pair to megabytes with
the same `if`/`elif` chain: `GB` multiplies by 1024, `KB` divides by 1024,
`B` divides by `1024 * 1024`, and any other unit (the regex only ever
produces `MB` in that case) leaves the value unchanged.  Python floats are
modelled by `ℚ`.
-/

def normalize_file_size (value : ℚ) (unit : String) : ℚ :=
  if unit = "GB" then value * 1024
  else if unit = "KB" then value / 1024
  else if unit = "B" then value / (1024 * 1024)
  else value

/-! ## Inventory Lister (`megadownload.py`, `list_all_files`)

The size annotation is matched with the regex `\((\d+\.\d+) (B|KB|MB|GB)\)`.
The regex is deterministic: at a match position there is an opening
parenthesis, a maximal non-empty digit run, a dot, a maximal non-empty digit
run, a space, one of the four units, and a closing parenthesis (the
backtracking engine cannot shrink a `\d+` run, because the following literal
is never a digit; the unit alternation is decided by the first character and
the required closing parenthesis).  `re.search` returns the leftmost match.
-/

/-- Match of the unit alternation `(B|KB|MB|GB)\)` at the head of `cs`. -/
def sizeUnitAt : List Char → Option String
  | 'B' :: ')' :: _ => some ("B")
  | 'K' :: 'B' :: ')' :: _ => some ("KB")
  | 'M' :: 'B' :: ')' :: _ => some ("MB")
  | 'G' :: 'B' :: ')' :: _ => some ("GB")
  | _ => none

/-- Match of `\((\d+\.\d+) (B|KB|MB|GB)\)` anchored at the head of `cs`;
returns the two capture groups (number text, unit). -/
def sizeMatchAt (cs : List Char) : Option (String × String) :=
  match cs with
  | '(' :: rest =>
    match rest.span Char.isDigit with
    | ([], _) => none
    | (d1, r1) =>
      match r1 with
      | '.' :: r2 =>
        match r2.span Char.isDigit with
        | ([], _) => none
        | (d2, r3) =>
          match r3 with
          | ' ' :: r4 =>
            (sizeUnitAt r4).map (fun u => (String.mk (d1 ++ '.' :: d2), u))
          | _ => none
      | _ => none
  | _ => none

/-- Model of `re.search` for the size pattern: leftmost match, returning
`(match.start(), number group, unit group)`. -/
def sizeSearch : List Char → Nat → Option (Nat × String × String)
  | [], _ => none
  | c :: cs, i =>
    match sizeMatchAt (c :: cs) with
    | some (num, u) => some (i, num, u)
    | none => sizeSearch cs (i + 1)

/-- Numeric value of a decimal digit list (most significant first). -/
def digitsToNat (l : List Char) : Nat :=
  l.foldl (fun acc c => acc * 10 + (c.toNat - 48)) 0

/-- Model of Python `float(s)` for the strings produced by the regex group
`\d+\.\d+` (integer digits, a dot, fractional digits), as an exact rational. -/
def parseDecimal (s : String) : ℚ :=
  match pySplit s (".") with
  | [ip, fp] => (digitsToNat ip.toList : ℚ) + (digitsToNat fp.toList : ℚ) / ((10 : ℚ) ^ fp.toList.length)
  | _ => 0

/-- Safe characters of `shlex.quote`: ASCII word characters plus
`@` `%` `+` `=` `:` `,` `.` `/` `-` (the complement of Python's
`_find_unsafe` character class). -/
def shlexSafe (c : Char) : Bool :=
  c.isAlphanum || c = '_' || c = '@' || c = '%' || c = '+' || c = '=' || c = ':'
    || c = ',' || c = '.' || c = '/' || c = '-'

/-- A single-quote character as a string (written via its code point to
keep the development free of quote literals). -/
def squoteStr : String := String.mk ['\x27']

/-- The replacement `shlex.quote` substitutes for an embedded single quote:
quote, double-quote, quote, double-quote, quote. -/
def squoteEsc : String := String.mk ['\x27', '"', '\x27', '"', '\x27']

/-- Model of Python `shlex.quote`. -/
def shlexQuote (s : String) : String :=
  if s = "" then squoteStr ++ squoteStr
  else if s.toList.all shlexSafe then s
  else squoteStr ++ pyReplace s squoteStr squoteEsc ++ squoteStr

/-- Model of `os.path.join(*parts)` (posixpath semantics) for a non-empty
list of parts.  (`os.path.join()` with no argument raises; in the source the
argument list comes from `str.split`, which is never empty.) -/
def posixJoin (parts : List String) : String :=
  match parts with
  | [] => ""
  | p :: rest =>
    rest.foldl
      (fun path b =>
        if pyStartsWith b ("/") then b
        else if path = "" || pyEndsWith path ("/") then path ++ b
        else path ++ "/" ++ b)
      p

namespace MegaCmdHelper

/-- The per-line body of the `for entry in entries:` loop of
`list_all_files`: strip `"\r"`, search for the size annotation —
`match.start()` on a failed search is the unhandled Python
`AttributeError` — normalize the size, cut the line at the match start,
split on `"/"`, rejoin and shell-quote the path, take the last segment as
the file name. -/
def list_all_files_entry (entry : String) : Except PyError (String × String × ℚ) :=
  let entry := pyReplace entry ("\r") ("")
  match sizeSearch entry.toList 0 with
  | none => .error .attributeError
  | some (start, num, unit) =>
    let file_size := normalize_file_size (parseDecimal num) unit
    let entry2 := pyStrip (String.mk (entry.toList.take start))
    let split_entry := pySplit entry2 ("/")
    let download_link := posixJoin split_entry
    let posix_path := shlexQuote download_link
    let file_name := split_entry.getLastD ("")
    .ok (posix_path, file_name, file_size)

/-- The `for entry in entries:` loop of `list_all_files`: process each line
in order, accumulating the `(posix_path, file_name, file_size)` triples; the
first line whose size search fails aborts the loop with the unhandled
error. -/
def list_all_files_lines : List String → Except PyError (List (String × String × ℚ))
  | [] => .ok []
  | e :: rest =>
    match list_all_files_entry e with
    | .error err => .error err
    | .ok v =>
      match list_all_files_lines rest with
      | .error err => .error err
      | .ok vs => .ok (v :: vs)

/-- Model of the parsing part of `MegaCmdHelper.list_all_files` (after the
`mega-find` command has produced `output` with a zero exit code): strip the
output, split into lines, run the per-line loop. -/
def list_all_files_parse (output : String) : Except PyError (List (String × String × ℚ)) :=
  list_all_files_lines (pySplit (pyStrip output) ("\n"))

end MegaCmdHelper

/-! ## Filesystem models (`fileutils.py`)

`folder_contains_file` walks the destination folder recursively
(`os.walk`); the folder is modelled as a finite rose tree of file-name
lists.  The per-item filesystem effects of the download loops are modelled
on a flat state holding the names of the files in the session temp folder
and in the destination folder: `move_files_to_destination` walks the temp
folder and moves every file into the (flat) destination folder, and
`remove_mega_tmp_files` deletes exactly the files of the temp folder whose
name starts with a dot (mega-cmd's partial-download artifacts). -/

inductive FsDir where
  | node (files : List String) (subdirs : List FsDir)

namespace FileUtils

mutual

/-- Model of `FileUtils.folder_contains_file`: recursive search (`os.walk`)
for a file whose name equals `file_name`. -/
def folder_contains_file : FsDir → String → Bool
  | .node files subdirs, file_name => files.contains file_name || folder_contains_file_list subdirs file_name

/-- Search of a list of subdirectories, in order. -/
def folder_contains_file_list : List FsDir → String → Bool
  | [], _ => false
  | d :: ds, file_name => folder_contains_file d file_name || folder_contains_file_list ds file_name

end

end FileUtils

/-- Names of the files in the session temp folder and in the destination
folder. -/
structure FsState where
  tmp : List String
  dest : List String
deriving DecidableEq, Repr

namespace FileUtils

/-- Model of `FileUtils.move_files_to_destination`: every file found under
the source (temp) folder is moved into the destination folder. -/
def move_files_to_destination (s : FsState) : FsState :=
  { tmp := [], dest := s.dest ++ s.tmp }

/-- Model of `FileUtils.remove_mega_tmp_files`: delete the files of the
temp folder whose name starts with `'.'`; nothing else is touched. -/
def remove_mega_tmp_files (s : FsState) : FsState :=
  { s with tmp := s.tmp.filter (fun n => !(pyStartsWith n ("."))) }

end FileUtils

/-! ## Missing-File Resolver
(`megadownload.py`, `MegaDownloadFolder._get_mega_download_paths_of_missing_files`)

Inventory entries are the `(mega_file_path, file_name, file_size)` triples
produced by `list_all_files`. -/

namespace MegaDownloadFolder

/-- Model of `_get_mega_download_paths_of_missing_files`: keep, in order,
exactly the entries whose file name is not found (recursively) in the
target folder. -/
def get_mega_download_paths_of_missing_files (target_folder : FsDir)
    : List (String × String × ℚ) → List (String × String × ℚ)
  | [] => []
  | e :: rest =>
    if FileUtils.folder_contains_file target_folder e.2.1 then
      get_mega_download_paths_of_missing_files target_folder rest
    else e :: get_mega_download_paths_of_missing_files target_folder rest

end MegaDownloadFolder

/-! ## Session destructors
(`megadownload.py`, `MegaDownloadFile.__del__` / `MegaDownloadFolder.__del__`)

`MegaCmdHelper.logout` spawns `mega-logout` and raises
`MegaDownloadException` unless the spawn completes with exit code 0 (an
exception escaping `pexpect.spawn` itself also propagates).
`MegaDownloadFolder.__del__` runs `logout()` *before*
`FileUtils.delete_folder(self.tmp_folder)`; an exception aborts the rest of
the destructor body, so the temp folder is then not deleted.
`MegaDownloadFile.__del__` only deletes the temp folder and never calls
`logout`.  `DelState` records whether the temp folder still exists and how
many times logout has been attempted. -/

namespace MegaCmdHelper

/-- Model of `MegaCmdHelper.logout` given the behaviour of the spawned
`mega-logout` process. -/
def logout (env : PexpectBehavior) : Except PyError Unit :=
  match SpawnHelper.spawn env with
  | .error e => .error e
  | .ok (SpawnStatus.NO_ERROR, exit, _output) =>
    if exit ≠ some 0 then .error .megaDownloadExn else .ok ()
  | .ok (SpawnStatus.TIMEOUT, _, _) => .error .megaDownloadExn
  | .ok (SpawnStatus.UNEXPECTED_ERROR, _, _) => .error .megaDownloadExn

end MegaCmdHelper

structure DelState where
  tmpExists : Bool
  logoutAttempts : Nat
deriving DecidableEq, Repr

namespace MegaDownloadFolder

/-- Model of `MegaDownloadFolder.__del__`: attempt logout; on success delete
the temp folder; if logout raises, the destructor body stops and the temp
folder survives. -/
def del (logoutEnv : PexpectBehavior) (s : DelState) : DelState :=
  let s1 : DelState := { s with logoutAttempts := s.logoutAttempts + 1 }
  match MegaCmdHelper.logout logoutEnv with
  | .error _ => s1
  | .ok _ => { s1 with tmpExists := false }

end MegaDownloadFolder

namespace MegaDownloadFile

/-- Model of `MegaDownloadFile.__del__`: delete the temp folder; no logout
call occurs in this destructor. -/
def del (s : DelState) : DelState :=
  { s with tmpExists := false }

end MegaDownloadFile

/-! ## Quota-aware polling path
(`megadownload.py`, `MegaCmdHelper.download_file_from_folder`)

The loop's interaction with the outside world is an explicit trace: the
`polls` list supplies, in order, the behaviour of every `SpawnHelper.spawn`
call made inside the loop (the periodic `mega-transfers` queries, the
`pkill mega-cmd-server` of `kill_mega_cmd_server`, the `mega-transfers`
of `start_mega_cmd_server`, and the `--show-completed` re-queries), and the
`ips` list supplies the outcomes of the successive `ip_changer.change_ip()`
calls.  `AgentEvent` records the externally visible actions the claims talk
about.  A run either leaves the `while True:` loop (`finished`), propagates
a Python exception (`raised`), or exhausts the supplied trace while the
loop is still running (`outOfTrace`).  Events are listed in execution
order. -/

inductive AgentEvent where
  | killServer
  | changeIp
  | startServer
deriving DecidableEq, Repr

inductive LoopResult where
  | finished (status : DownloadStatus) (events : List AgentEvent)
  | raised (e : PyError) (events : List AgentEvent)
  | outOfTrace (events : List AgentEvent)
deriving DecidableEq, Repr

namespace LoopResult

/-- Record `evs` as having happened before the events of `r`. -/
def after (r : LoopResult) (evs : List AgentEvent) : LoopResult :=
  match r with
  | .finished st e => .finished st (evs ++ e)
  | .raised err e => .raised err (evs ++ e)
  | .outOfTrace e => .outOfTrace (evs ++ e)

/-- The events of a run. -/
def events : LoopResult → List AgentEvent
  | .finished _ e => e
  | .raised _ e => e
  | .outOfTrace e => e

end LoopResult

namespace MegaCmdHelper

/-- Model of `MegaCmdHelper.kill_mega_cmd_server`: raises on spawn timeout
or unexpected spawn error; a non-zero exit code of `pkill` only *constructs*
a `MegaDownloadException` without raising it (the `raise` keyword is missing
in the source), so it is not an error here. -/
def kill_mega_cmd_server (env : PexpectBehavior) : Except PyError Unit :=
  match SpawnHelper.spawn env with
  | .error e => .error e
  | .ok (SpawnStatus.NO_ERROR, _, _) => .ok ()
  | .ok (SpawnStatus.TIMEOUT, _, _) => .error .megaDownloadExn
  | .ok (SpawnStatus.UNEXPECTED_ERROR, _, _) => .error .megaDownloadExn

/-- Model of `MegaCmdHelper.start_mega_cmd_server`: same shape as
`kill_mega_cmd_server` (including the missing `raise` on non-zero exit). -/
def start_mega_cmd_server (env : PexpectBehavior) : Except PyError Unit :=
  match SpawnHelper.spawn env with
  | .error e => .error e
  | .ok (SpawnStatus.NO_ERROR, _, _) => .ok ()
  | .ok (SpawnStatus.TIMEOUT, _, _) => .error .megaDownloadExn
  | .ok (SpawnStatus.UNEXPECTED_ERROR, _, _) => .error .megaDownloadExn

end MegaCmdHelper

/-- Model of the IP Rotation Gateway call `ip_changer.change_ip()`: the
router either confirms a new address or the call raises
`ChangeIpException`. -/
def change_ip (ok : Bool) : Except PyError Unit :=
  if ok then .ok () else .error .changeIpExn

/-- The external interactions available to one iteration of the polling
loop: the periodic `mega-transfers` status query (always made), the `pkill`
/ `change_ip()` / server-restart interactions (consumed only on a
`RETRYING` signal), and the `--show-completed` re-query (consumed only when
the status query's output is empty). -/
structure PollStep where
  transfersEnv : PexpectBehavior
  killEnv : PexpectBehavior
  ipOk : Bool
  startEnv : PexpectBehavior
  showCompletedEnv : PexpectBehavior
deriving DecidableEq, Repr

namespace MegaCmdHelper

/-- First record of `infos` whose destination path contains `filename`
(the `for file_destination, state, progress in download_infos:` loop breaks
at the first record with `filename in file_destination`, after handling the
`RETRYING` case). -/
def find_matching_record (filename : String) (infos : List (String × String × String))
    : Option (String × String × String) :=
  infos.find? (fun r => pyIn filename r.1)

/-- The scan of the `--show-completed` records: the first record matching
`filename` whose state is `COMPLETED` resolves the download (`some true`);
`COMPLETING` keeps the loop polling (`some false`); a matching record in
any other state is only printed and the scan continues; `none` when no
record decides. -/
def scan_completed (filename : String) : List (String × String × String) → Option Bool
  | [] => none
  | r :: rs =>
    if pyIn filename r.1 then
      if r.2.1 = "COMPLETED" then some true
      else if r.2.1 = "COMPLETING" then some false
      else scan_completed filename rs
    else scan_completed filename rs

/-- Model of the `while True:` polling loop of
`MegaCmdHelper.download_file_from_folder` (source lines 297-354).  Each
iteration consumes one `PollStep`: the `mega-transfers` status query uses
`transfersEnv`; on a `RETRYING` first match the iteration also performs
`kill_mega_cmd_server` (`killEnv`), `ip_changer.change_ip()` (`ipOk`) and
`start_mega_cmd_server` (`startEnv`); when the status query's output is
empty it instead performs the `--show-completed` re-query
(`showCompletedEnv`).  `status` is the running `download_status` variable.
A `--show-completed` query whose spawn times out or errors hits the missing
`else` of the inner `if` in the source: the loop just continues. -/
def download_poll_loop (filename : String) (status : DownloadStatus) :
    List PollStep → LoopResult
  | [] => .outOfTrace []
  | step :: rest =>
    match SpawnHelper.spawn step.transfersEnv with
    | .error e => .raised e []
    | .ok (SpawnStatus.TIMEOUT, _, _) => .finished status []
    | .ok (SpawnStatus.UNEXPECTED_ERROR, _, _) => .finished status []
    | .ok (SpawnStatus.NO_ERROR, exit, out) =>
      if exit ≠ some 0 then .finished status []
      else
        let download_infos := parse_mega_transfers_output out
        if download_infos ≠ [] then
          match find_matching_record filename download_infos with
          | some r =>
            if r.2.1 = "RETRYING" then
              match kill_mega_cmd_server step.killEnv with
              | .error e => .raised e [.killServer]
              | .ok _ =>
                match change_ip step.ipOk with
                | .error e => .raised e [.killServer]
                | .ok _ =>
                  match start_mega_cmd_server step.startEnv with
                  | .error e => .raised e [.killServer, .changeIp]
                  | .ok _ =>
                    (download_poll_loop filename status rest).after
                      [.killServer, .changeIp, .startServer]
            else download_poll_loop filename status rest
          | none => download_poll_loop filename status rest
        else if pyReplace (pyReplace out ("\r") ("")) ("\n") ("") = "" then
          match SpawnHelper.spawn step.showCompletedEnv with
          | .error e => .raised e []
          | .ok (SpawnStatus.NO_ERROR, exit2, out2) =>
            if exit2 ≠ some 0 then .finished status []
            else
              match scan_completed filename (parse_mega_transfers_output out2) with
              | some true => .finished DownloadStatus.NO_ERROR []
              | some false => download_poll_loop filename status rest
              | none => .finished status []
          | .ok (SpawnStatus.TIMEOUT, _, _) => download_poll_loop filename status rest
          | .ok (SpawnStatus.UNEXPECTED_ERROR, _, _) => download_poll_loop filename status rest
        else .finished status []

/-- Model of `MegaCmdHelper.download_file_from_folder`: the initial
`mega-get -q` spawn consumes `getEnv`; the polling loop runs only when it
completes with exit code 0 (otherwise the initial
`download_status = DownloadStatus.DOWNLOAD_FAILED` is returned). -/
def download_file_from_folder (filename : String) (getEnv : PexpectBehavior)
    (polls : List PollStep) : LoopResult :=
  match SpawnHelper.spawn getEnv with
  | .error e => .raised e []
  | .ok (SpawnStatus.NO_ERROR, exit, _) =>
    if exit = some 0 then download_poll_loop filename DownloadStatus.DOWNLOAD_FAILED polls
    else .finished DownloadStatus.DOWNLOAD_FAILED []
  | .ok (SpawnStatus.TIMEOUT, _, _) => .finished DownloadStatus.DOWNLOAD_FAILED []
  | .ok (SpawnStatus.UNEXPECTED_ERROR, _, _) => .finished DownloadStatus.DOWNLOAD_FAILED []

end MegaCmdHelper

/-- Shorthand: a spawned process that prints `out` and exits with code
`exit`. -/
def okProc (exit : Int) (out : String) : PexpectBehavior :=
  PexpectBehavior.proc { readResult := ReadResult.ok out, exitstatus := some exit }

/-! ## Folder-mode download loop (`megadownload.py`,
`MegaDownloadFolder.download_files`, source lines 559–591)

For each missing work item `(mega_file_path, filename, file_size)` the loop
calls `download_file_from_folder` (whose external interactions are given by
that item's `ItemRun` trace), appends `(mega_file_path, status)` to the
result list, and on `NO_ERROR` adds `file_size` to the running
`total_downloaded_data` (used only in a log line) and moves the downloaded
files to the destination; on any other status it purges the dot-prefixed
temp artifacts.  A Python exception from an item (e.g. from
`kill_mega_cmd_server` inside the polling path) propagates out of
`download_files`. -/

/-- The external-world trace of one work item's `download_file_from_folder`
call. -/
structure ItemRun where
  getEnv : PexpectBehavior
  polls : List PollStep

/-- Result of the folder-mode loop over all work items: the per-item status
list, the events of all items in order, and the final
`total_downloaded_data`; or a propagated exception / exhausted trace. -/
inductive FolderRunResult where
  | finished (statuses : List (String × DownloadStatus)) (events : List AgentEvent) (total : ℚ)
  | raised (e : PyError) (events : List AgentEvent)
  | outOfTrace (events : List AgentEvent)
deriving DecidableEq, Repr

namespace MegaDownloadFolder

/-- Model of the `for mega_file_path, filename, file_size in
mega_download_paths:` loop of `MegaDownloadFolder.download_files`, with
`total` the running `total_downloaded_data`. -/
def download_files_loop :
    List ((String × String × ℚ) × ItemRun) → ℚ → FolderRunResult
  | [], total => .finished [] [] total
  | (item, run) :: rest, total =>
    match MegaCmdHelper.download_file_from_folder item.2.1 run.getEnv run.polls with
    | .raised e evs => .raised e evs
    | .outOfTrace evs => .outOfTrace evs
    | .finished status evs =>
      let total2 := if status = DownloadStatus.NO_ERROR then total + item.2.2 else total
      match download_files_loop rest total2 with
      | .raised e evs2 => .raised e (evs ++ evs2)
      | .outOfTrace evs2 => .outOfTrace (evs ++ evs2)
      | .finished statuses evs2 totalF =>
        .finished ((item.1, status) :: statuses) (evs ++ evs2) totalF

end MegaDownloadFolder

/-! ## Progress Reporter (`megadownload.py`, `MegaCmdHelper.print_progress`;
`colortext.py`, `print_progress_bar`)

Python call arity is modelled explicitly: `print_progress_bar` is declared
as `def print_progress_bar(percentage, length=50)`, so it accepts between 1
and 2 positional arguments; a call with a different number of positional
arguments raises `TypeError`. -/

/-- Minimum and maximum number of positional arguments accepted by
`print_progress_bar(percentage, length=50)` in `colortext.py`. -/
def print_progress_bar_arity : Nat × Nat := (1, 2)

/-- A Python call with `n` positional arguments against a function accepting
between `arity.1` and `arity.2` of them. -/
def pyCallWellFormed (arity : Nat × Nat) (n : Nat) : Bool :=
  decide (arity.1 ≤ n) && decide (n ≤ arity.2)

/-- The body of `print_progress_bar(percentage, length=50)` once the call
binds: the textual bar of `length` cells with `⌊length * percentage / 100⌋`
filled. -/
def print_progress_bar (percentage : ℚ) (length : Nat) : String :=
  let filled_length := (Int.toNat ⌊(length : ℚ) * percentage / 100⌋)
  String.mk (List.replicate filled_length '#' ++ List.replicate (length - filled_length) '-')

namespace MegaCmdHelper

/-- Model of the rendering step of `MegaCmdHelper.print_progress` once a
percentage has been matched in the current record's progress string: it
computes `downloaded_data` and the average speed and then calls
`print_progress_bar(progress, downloaded_data, average_download_speed)` —
three positional arguments. -/
def print_progress_render (progress file_size : ℚ) (download_time_in_seconds : ℚ)
    : Except PyError String :=
  let _downloaded_data := (progress * file_size) / 100
  let _average_download_speed := (file_size / download_time_in_seconds) * 8
  if pyCallWellFormed print_progress_bar_arity 3 then
    .ok (print_progress_bar progress 50)
  else .error .typeError

end MegaCmdHelper

namespace FolderRunResult

/-- The events of a folder run. -/
def events : FolderRunResult → List AgentEvent
  | .finished _ e _ => e
  | .raised _ e => e
  | .outOfTrace e => e

/-- Did the folder loop run to completion (no exception, trace sufficient)? -/
def isFinished : FolderRunResult → Bool
  | .finished _ _ _ => true
  | _ => false

/-- The per-item status list of a completed folder run. -/
def statuses : FolderRunResult → List (String × DownloadStatus)
  | .finished sts _ _ => sts
  | _ => []

end FolderRunResult

/-- A poll step carries no quota signal for `filename`: if its status query
is a process whose output parses to transfer records, the first record
matching `filename` is not in state `RETRYING`. -/
def noRetrySignal (filename : String) (step : PollStep) : Bool :=
  match step.transfersEnv with
  | .proc p =>
    match p.readResult with
    | .ok out =>
      match MegaCmdHelper.find_matching_record filename
          (MegaCmdHelper.parse_mega_transfers_output out) with
      | some r => !(r.2.1 = "RETRYING")
      | none => true
    | _ => true
  | _ => true

/-- Sum of the sizes of the work items whose paired status is `NO_ERROR`
(the sizes `download_files` adds to `total_downloaded_data`). -/
def no_error_total : List ((String × String × ℚ) × ItemRun) → List (String × DownloadStatus) → ℚ
  | [], _ => 0
  | (item, _) :: rest, (_, st) :: srest =>
    (if st = DownloadStatus.NO_ERROR then item.2.2 else 0) + no_error_total rest srest
  | _ :: _, [] => 0

namespace MegaDownloadFolder

/-- Model of the filesystem effect of one loop item in
`MegaDownloadFolder.download_files`: on `NO_ERROR` the downloaded files are
moved to the destination; on any other status the dot-prefixed temp
artifacts are purged. -/
def after_item_fs (status : DownloadStatus) (s : FsState) : FsState :=
  if status = DownloadStatus.NO_ERROR then FileUtils.move_files_to_destination s
  else FileUtils.remove_mega_tmp_files s

/-- Model of the `MegaCmdHelper.logout()` call in
`MegaDownloadFolder.__init__` as its effect on the logout-attempt counter
(the constructor then logs in to the folder link). -/
def init (s : DelState) : DelState :=
  { s with logoutAttempts := s.logoutAttempts + 1 }

end MegaDownloadFolder

namespace MegaDownloadFile

/-- Model of the filesystem effect of the status branch at the end of
`MegaDownloadFile.download_file`: `NO_ERROR` moves the files to the
destination, `TIMEOUT_EXCEEDED` and the failure branch purge the
dot-prefixed temp artifacts. -/
def download_file_fs (status : DownloadStatus) (s : FsState) : FsState :=
  if status = DownloadStatus.NO_ERROR then FileUtils.move_files_to_destination s
  else if status = DownloadStatus.TIMEOUT_EXCEEDED then FileUtils.remove_mega_tmp_files s
  else FileUtils.remove_mega_tmp_files s

end MegaDownloadFile

/-! ## Concrete scenario inputs used by the witnesses and counterexamples -/

/-- A `mega-transfers` output reporting the current file as `RETRYING`. -/
def retryOut : String :=
  "DESTINYPATH|||STATE|||PROGRESS\n/tmp/t/movie.mkv|||RETRYING|||10.0%"

/-- A `--show-completed` output reporting the current file as `COMPLETED`. -/
def completedOut : String :=
  "DESTINYPATH|||STATE|||PROGRESS\n/tmp/t/movie.mkv|||COMPLETED|||100.0%"

/-- `--show-completed` outputs for the two files of the folder scenario. -/
def completedOut1 : String :=
  "DESTINYPATH|||STATE|||PROGRESS\n/tmp/t/f1.mkv|||COMPLETED|||100.0%"

def completedOut2 : String :=
  "DESTINYPATH|||STATE|||PROGRESS\n/tmp/t/f2.mkv|||COMPLETED|||100.0%"

/-- A poll step whose status query reports the current file as `RETRYING`
and whose rotation interactions (kill, IP change, restart) all succeed. -/
def retryStep : PollStep :=
  { transfersEnv := okProc 0 retryOut,
    killEnv := okProc 0 (""),
    ipOk := true,
    startEnv := okProc 0 (""),
    showCompletedEnv := okProc 0 ("") }

/-- A poll step whose status query sees no active transfer and whose
`--show-completed` re-query prints `showOut`. -/
def completeStep (showOut : String) : PollStep :=
  { transfersEnv := okProc 0 (""),
    killEnv := okProc 0 (""),
    ipOk := true,
    startEnv := okProc 0 (""),
    showCompletedEnv := okProc 0 showOut }

/-- An item run that completes immediately: the quiet `mega-get` succeeds,
the first poll sees no active transfer, and the `--show-completed` query
reports `COMPLETED`. -/
def quickRun (completedOutput : String) : ItemRun :=
  { getEnv := okProc 0 (""),
    polls := [completeStep completedOutput] }

/-- Folder-mode scenario for the threshold claim: two work items of 60 MB
each (cumulative sum 120 MB), both downloading successfully without any
quota signal. -/
def thresholdItems : List ((String × String × ℚ) × ItemRun) :=
  [(("l/f1.mkv", "f1.mkv", (60 : ℚ)), quickRun completedOut1),
   (("l/f2.mkv", "f2.mkv", (60 : ℚ)), quickRun completedOut2)]

/-! ## Claims -/

/-- Claim C6 (confirmed): for all parsed `(value, unit)` pairs, the size
normalization to MB satisfies `normalize(value, "GB") = value * 1024`,
`normalize(value, "KB") = value / 1024`, `normalize(value, "B") =
value / 1048576` and `normalize(value, "MB") = value`. -/
theorem C6_normalize_to_mb (value : ℚ) :
    normalize_file_size value ("GB") = value * 1024 ∧
    normalize_file_size value ("KB") = value / 1024 ∧
    normalize_file_size value ("B") = value / 1048576 ∧
    normalize_file_size value ("MB") = value := by
  refine ⟨rfl, rfl, ?_, rfl⟩
  show value / (1024 * 1024) = value / 1048576
  norm_num

/-- The resolver keeps exactly the entries whose file name is absent from
the target folder, in order (filter characterization). -/
theorem get_missing_eq_filter (target : FsDir) (entries : List (String × String × ℚ)) :
    MegaDownloadFolder.get_mega_download_paths_of_missing_files target entries
      = entries.filter (fun e => !(FileUtils.folder_contains_file target e.2.1)) := by
  induction entries with
  | nil => rfl
  | cons e rest ih =>
    by_cases h : FileUtils.folder_contains_file target e.2.1 = true
    · simp [MegaDownloadFolder.get_mega_download_paths_of_missing_files, h, ih]
    · simp [MegaDownloadFolder.get_mega_download_paths_of_missing_files, h, ih]

/-- Claim C8 (confirmed): the Missing-File Resolver returns exactly the
inventory entries whose display name is absent (by recursive search) from
the destination folder, preserving the inventory's original order, and the
resolver is idempotent against an unchanged destination folder. -/
theorem C8_resolver_filter_and_idempotent (target : FsDir) (entries : List (String × String × ℚ)) :
    MegaDownloadFolder.get_mega_download_paths_of_missing_files target entries
      = entries.filter (fun e => !(FileUtils.folder_contains_file target e.2.1)) ∧
    MegaDownloadFolder.get_mega_download_paths_of_missing_files target
        (MegaDownloadFolder.get_mega_download_paths_of_missing_files target entries)
      = MegaDownloadFolder.get_mega_download_paths_of_missing_files target entries := by
  refine ⟨get_missing_eq_filter target entries, ?_⟩
  rw [get_missing_eq_filter, get_missing_eq_filter, List.filter_filter]
  simp

/-- Claim C5 (confirmed): the destination folder is written to only by the
move of fully-downloaded files after an item completes with `NO_ERROR`; on
any other outcome only the dot-prefixed partial temp artifacts are purged
and the destination folder is unchanged by that item (both in folder mode
and in single-file mode). -/
theorem C5_destination_frame (status : DownloadStatus) (s : FsState) :
    (status ≠ DownloadStatus.NO_ERROR →
      (MegaDownloadFolder.after_item_fs status s).dest = s.dest ∧
      (MegaDownloadFolder.after_item_fs status s).tmp
        = s.tmp.filter (fun n => !(pyStartsWith n ("."))) ∧
      (MegaDownloadFile.download_file_fs status s).dest = s.dest) ∧
    MegaDownloadFolder.after_item_fs DownloadStatus.NO_ERROR s
      = FileUtils.move_files_to_destination s ∧
    MegaDownloadFile.download_file_fs DownloadStatus.NO_ERROR s
      = FileUtils.move_files_to_destination s ∧
    (FileUtils.move_files_to_destination s).dest = s.dest ++ s.tmp := by
  refine ⟨?_, rfl, rfl, rfl⟩
  intro h
  cases status with
  | NO_ERROR => exact absurd rfl h
  | TIMEOUT_EXCEEDED => exact ⟨rfl, rfl, rfl⟩
  | DOWNLOAD_FAILED => exact ⟨rfl, rfl, rfl⟩

/-- Witness for C5 at a concrete failed item: the destination keeps exactly
its previous contents and only the dot-file is eligible for purging. -/
theorem C5_destination_frame_witness :
    DownloadStatus.DOWNLOAD_FAILED ≠ DownloadStatus.NO_ERROR ∧
    ((MegaDownloadFolder.after_item_fs DownloadStatus.DOWNLOAD_FAILED
        { tmp := [".getxfer", "full.mkv"], dest := ["old.mkv"] }).dest = ["old.mkv"] ∧
      (MegaDownloadFolder.after_item_fs DownloadStatus.DOWNLOAD_FAILED
        { tmp := [".getxfer", "full.mkv"], dest := ["old.mkv"] }).tmp
        = [".getxfer", "full.mkv"].filter (fun n => !(pyStartsWith n ("."))) ∧
      (MegaDownloadFile.download_file_fs DownloadStatus.DOWNLOAD_FAILED
        { tmp := [".getxfer", "full.mkv"], dest := ["old.mkv"] }).dest = ["old.mkv"]) :=
  ⟨by decide,
    (C5_destination_frame DownloadStatus.DOWNLOAD_FAILED
      { tmp := [".getxfer", "full.mkv"], dest := ["old.mkv"] }).1 (by decide)⟩

/-- Counterexample for C7: a failure of the `pexpect.spawn` call itself
(outside the `try` block, e.g. command not found) propagates as an
exception instead of yielding a `SPAWN_ERROR` outcome; and on a read
timeout the returned exit code is whatever the closed process reports, not
necessarily unset. -/
theorem C7_counterexample :
    SpawnHelper.spawn PexpectBehavior.raisesExn = Except.error PyError.pexpectExn ∧
    SpawnHelper.spawn
        (PexpectBehavior.proc { readResult := ReadResult.timeoutExn, exitstatus := some 0 })
      = Except.ok (SpawnStatus.TIMEOUT, some 0, "") := by
  exact ⟨rfl, rfl⟩

/-- Claim C7 (corrected): for every command whose `pexpect.spawn` call
itself succeeds, the Process Runner returns a classified outcome rather
than raising — the outcome is `TIMEOUT` exactly when reading the output
raised `pexpect.TIMEOUT` and `UNEXPECTED_ERROR` exactly when it raised any
other exception — and the returned exit code is the process's reported
`exitstatus` (possibly unset); an exception in the `pexpect.spawn` call
itself propagates. -/
theorem C7_runner_classifies (p : PexpectProc) :
    ∃ st out, SpawnHelper.spawn (PexpectBehavior.proc p) = Except.ok (st, p.exitstatus, out) ∧
      (st = SpawnStatus.TIMEOUT ↔ p.readResult = ReadResult.timeoutExn) ∧
      (st = SpawnStatus.UNEXPECTED_ERROR ↔ p.readResult = ReadResult.otherExn) := by
  cases p with
  | mk rr ex =>
    cases rr with
    | ok out => exact ⟨SpawnStatus.NO_ERROR, out, rfl, by simp, by simp⟩
    | timeoutExn => exact ⟨SpawnStatus.TIMEOUT, "", rfl, by simp, by simp⟩
    | otherExn => exact ⟨SpawnStatus.UNEXPECTED_ERROR, "", rfl, by simp, by simp⟩

/-- Claim C9 (code_bug): whenever the Progress Reporter has matched a
percentage, the rendering step raises `TypeError` — the call passes three
positional arguments `(progress, downloaded_data, average_download_speed)`
to `print_progress_bar(percentage, length=50)`, which accepts at most
two — so the rendering call is never well-formed, contrary to the claim. -/
theorem C9_render_raises_type_error (progress file_size t : ℚ) :
    MegaCmdHelper.print_progress_render progress file_size t
      = Except.error PyError.typeError := rfl

/-- Counterexample for C3: (i) if the logout attempted in
`MegaDownloadFolder.__del__` raises (here: `mega-logout` exits with code 1),
the destructor body stops before `FileUtils.delete_folder`, so the temp
folder still exists after the session object's lifetime ends; (ii) a folder
session whose logouts succeed attempts logout twice (once in `__init__`,
once in `__del__`), not exactly once; (iii) the file-mode destructor
attempts no logout at all. -/
theorem C3_counterexample :
    (MegaDownloadFolder.del (okProc 1 ("")) { tmpExists := true, logoutAttempts := 0 }).tmpExists
      = true ∧
    (MegaDownloadFolder.del (okProc 0 (""))
        (MegaDownloadFolder.init { tmpExists := true, logoutAttempts := 0 })).logoutAttempts = 2 ∧
    (MegaDownloadFile.del { tmpExists := true, logoutAttempts := 0 }).logoutAttempts = 0 := by
  exact ⟨rfl, rfl, rfl⟩

/-- Claim C3 (corrected): at destruction, a folder session attempts logout
exactly once more and then deletes the temp folder, so the temp folder is
gone afterwards if and only if that logout attempt does not raise; a
file-mode session's destructor always deletes the temp folder and attempts
no logout (its only logout attempt is at construction). -/
theorem C3_session_cleanup (env : PexpectBehavior) (s : DelState) (h : s.tmpExists = true) :
    (MegaDownloadFolder.del env s).logoutAttempts = s.logoutAttempts + 1 ∧
    ((MegaDownloadFolder.del env s).tmpExists = false ↔ MegaCmdHelper.logout env = Except.ok ()) ∧
    (MegaDownloadFile.del s).tmpExists = false ∧
    (MegaDownloadFile.del s).logoutAttempts = s.logoutAttempts := by
  unfold MegaDownloadFolder.del MegaDownloadFile.del
  cases hl : MegaCmdHelper.logout env with
  | error e => simp [hl, h]
  | ok u => cases u; simp [hl]

/-- Witness for C3 at a successful logout: the destructor deletes the temp
folder and increments the logout-attempt count. -/
theorem C3_session_cleanup_witness :
    ({ tmpExists := true, logoutAttempts := 1 } : DelState).tmpExists = true ∧
    ((MegaDownloadFolder.del (okProc 0 (""))
        { tmpExists := true, logoutAttempts := 1 }).logoutAttempts = 1 + 1 ∧
      ((MegaDownloadFolder.del (okProc 0 (""))
          { tmpExists := true, logoutAttempts := 1 }).tmpExists = false ↔
        MegaCmdHelper.logout (okProc 0 ("")) = Except.ok ()) ∧
      (MegaDownloadFile.del { tmpExists := true, logoutAttempts := 1 }).tmpExists = false ∧
      (MegaDownloadFile.del { tmpExists := true, logoutAttempts := 1 }).logoutAttempts = 1) :=
  ⟨rfl, C3_session_cleanup (okProc 0 ("")) { tmpExists := true, logoutAttempts := 1 } rfl⟩

/-- Counterexample for C4: the state check of the parser is the Python
substring test `download_info[1] in valid_states` against the single string
of all states, so the line `a|||TIVE|||1%` — whose state `TIVE` is not one
of the 8 valid states — still yields a record. -/
theorem C4_counterexample :
    MegaCmdHelper.parse_mega_transfers_output
        ("DESTINYPATH|||STATE|||PROGRESS\na|||TIVE|||1%")
      = [("a", "TIVE", "1%")] ∧
    ¬ ("TIVE" ∈ spec_valid_states) := by
  exact ⟨by decide, by decide⟩

/-- A line yields a record exactly when splitting it on the delimiter gives
exactly 3 fields and the middle field occurs as a substring of the
`valid_states` string. -/
theorem transfers_line_record_some_iff (entry : String) (a b c : String) :
    MegaCmdHelper.transfers_line_record entry = some (a, b, c) ↔
      (pySplit entry ("|||") = [a, b, c] ∧ pyIn b MegaCmdHelper.valid_states = true) := by
  unfold MegaCmdHelper.transfers_line_record
  generalize pySplit entry ("|||") = di
  rcases di with _ | ⟨x, _ | ⟨y, _ | ⟨z, _ | ⟨w, rest⟩⟩⟩⟩ <;>
    simp only [List.length_nil, List.length_cons, List.getD] <;>
    try simp
  by_cases hy : pyIn y MegaCmdHelper.valid_states = true
  · simp only [hy, Bool.and_true, and_true]
    constructor
    · intro hsome
      simp at hsome
      obtain ⟨rfl, rfl, rfl⟩ := hsome
      exact ⟨⟨rfl, rfl, rfl⟩, hy⟩
    · rintro ⟨⟨rfl, rfl, rfl⟩, _⟩
      simp
  · simp only [hy, Bool.and_false]
    constructor
    · intro hsome
      simp at hsome
    · rintro ⟨⟨rfl, rfl, rfl⟩, hb⟩
      exact absurd hb hy

/-- Claim C4 (corrected): after locating the first line containing `|||`
and validating that it is exactly the three-column header, a subsequent
line yields a record if and only if it has exactly 3 fields and its state
field is a *substring* of the valid-states string
`QUEUED|ACTIVE|PAUSED|RETRYING|COMPLETING|COMPLETED|CANCELLED|FAILED`
(all 8 valid states are accepted, but so are other substrings); every other
line is silently discarded. -/
theorem C4_parser_records (output : String) (i : Nat)
    (hlen : 1 < (pySplit (pyReplace (pyStrip output) ("\r") ("")) ("\n")).length)
    (hidx : (((pySplit (pyReplace (pyStrip output) ("\r") ("")) ("\n")).findIdx?
        (fun e => pyIn ("|||") e)).getD 0) = i)
    (hheader : pySplit ((pySplit (pyReplace (pyStrip output) ("\r") ("")) ("\n")).getD i ("")) ("|||")
        = ["DESTINYPATH", "STATE", "PROGRESS"]) :
    MegaCmdHelper.parse_mega_transfers_output output
      = ((pySplit (pyReplace (pyStrip output) ("\r") ("")) ("\n")).drop (i + 1)).filterMap
          MegaCmdHelper.transfers_line_record ∧
    (∀ entry a b c, MegaCmdHelper.transfers_line_record entry = some (a, b, c) ↔
      (pySplit entry ("|||") = [a, b, c] ∧ pyIn b MegaCmdHelper.valid_states = true)) ∧
    (∀ st ∈ spec_valid_states, pyIn st MegaCmdHelper.valid_states = true) := by
  refine ⟨?_, fun entry a b c => transfers_line_record_some_iff entry a b c, by decide⟩
  simp only [MegaCmdHelper.parse_mega_transfers_output]
  rw [hidx, hheader]
  simp [hlen]

/-- Witness for C4 on the specification's round-trip example: the records
are exactly the post-header lines surviving the record filter. -/
theorem C4_parser_records_witness :
    MegaCmdHelper.parse_mega_transfers_output
        ("DESTINYPATH|||STATE|||PROGRESS\nx/y.mkv|||ACTIVE|||42.0%")
      = ((pySplit (pyReplace (pyStrip
            ("DESTINYPATH|||STATE|||PROGRESS\nx/y.mkv|||ACTIVE|||42.0%")) ("\r") ("")) ("\n")).drop
          (0 + 1)).filterMap MegaCmdHelper.transfers_line_record :=
  (C4_parser_records ("DESTINYPATH|||STATE|||PROGRESS\nx/y.mkv|||ACTIVE|||42.0%") 0
    (by decide) (by decide) (by decide)).1

/-- Is a computation's result a value (no exception)? -/
def isOkE {α : Type} : Except PyError α → Bool
  | .ok _ => true
  | .error _ => false

/-- A line of the listing either processes successfully (when the size
annotation is found) or raises exactly the unhandled `AttributeError`
(`match.start()` on `None`). -/
theorem list_all_files_entry_cases (entry : String) :
    (sizeSearch (pyReplace entry ("\r") ("")).toList 0 = none ∧
      MegaCmdHelper.list_all_files_entry entry = Except.error PyError.attributeError) ∨
    (sizeSearch (pyReplace entry ("\r") ("")).toList 0 ≠ none ∧
      isOkE (MegaCmdHelper.list_all_files_entry entry) = true) := by
  unfold MegaCmdHelper.list_all_files_entry
  cases hs : sizeSearch (pyReplace entry ("\r") ("")).toList 0 with
  | none =>
    have hs' : sizeSearch (pyReplace entry ("\r") ("")).data 0 = none := hs
    exact Or.inl ⟨rfl, by simp [hs']⟩
  | some v =>
    rcases v with ⟨start, num, unit⟩
    have hs' : sizeSearch (pyReplace entry ("\r") ("")).data 0 = some (start, num, unit) := hs
    refine Or.inr ⟨by simp [hs], ?_⟩
    simp [hs', isOkE]

/-- The listing loop succeeds exactly when every line's size search
succeeds, and any line without a size-annotation match makes the whole loop
abort with the unhandled `AttributeError`. -/
theorem list_all_files_lines_characterization (l : List String) :
    (isOkE (MegaCmdHelper.list_all_files_lines l) = true ↔
      ∀ entry ∈ l, sizeSearch (pyReplace entry ("\r") ("")).toList 0 ≠ none) ∧
    ((∃ entry ∈ l, sizeSearch (pyReplace entry ("\r") ("")).toList 0 = none) →
      MegaCmdHelper.list_all_files_lines l = Except.error PyError.attributeError) := by
  induction l with
  | nil =>
    refine ⟨by simp [MegaCmdHelper.list_all_files_lines, isOkE], ?_⟩
    rintro ⟨e, he, -⟩
    exact absurd he (List.not_mem_nil e)
  | cons x rest ih =>
    rcases list_all_files_entry_cases x with ⟨hxs, hxe⟩ | ⟨hxs, hxo⟩
    · refine ⟨?_, ?_⟩
      · rw [MegaCmdHelper.list_all_files_lines, hxe]
        simp only [isOkE]
        constructor
        · intro hfalse; exact absurd hfalse (by simp)
        · intro hall; exact absurd hxs (hall x (List.mem_cons_self x rest))
      · intro _
        rw [MegaCmdHelper.list_all_files_lines, hxe]
    · obtain ⟨v, hv⟩ : ∃ v, MegaCmdHelper.list_all_files_entry x = Except.ok v := by
        cases hx : MegaCmdHelper.list_all_files_entry x with
        | ok v => exact ⟨v, rfl⟩
        | error e => rw [hx] at hxo; simp [isOkE] at hxo
      refine ⟨?_, ?_⟩
      · rw [MegaCmdHelper.list_all_files_lines, hv]
        cases hr : MegaCmdHelper.list_all_files_lines rest with
        | error err =>
          simp only [isOkE]
          constructor
          · intro hfalse; exact absurd hfalse (by simp)
          · intro hall
            have : isOkE (MegaCmdHelper.list_all_files_lines rest) = true :=
              ih.1.mpr (fun e he => hall e (List.mem_cons_of_mem x he))
            rw [hr] at this; simp [isOkE] at this
        | ok vs =>
          simp only [isOkE, true_iff]
          intro e he
          rcases List.mem_cons.mp he with rfl | hmem
          · exact hxs
          · have : isOkE (MegaCmdHelper.list_all_files_lines rest) = true := by
              rw [hr]; rfl
            exact ih.1.mp this e hmem
      · rintro ⟨e, he, hes⟩
        rcases List.mem_cons.mp he with rfl | hmem
        · exact absurd hes hxs
        · have hrest := ih.2 ⟨e, hmem, hes⟩
          rw [MegaCmdHelper.list_all_files_lines, hv, hrest]

/-- Claim C10 (confirmed): the Inventory Lister's parse is total only under
the precondition that every line of the listing output carries a size
annotation matching `(<digits>.<digits> <unit>)` (a fractional part is
required, so `(5 MB)` does not match); any listing output containing a line
without such a match makes `list_all_files` fail with the unhandled
`AttributeError` (`match.start()` on `None`) rather than return a sequence
or raise a `MegaDownloadException`. -/
theorem C10_lister_totality (output : String) :
    (isOkE (MegaCmdHelper.list_all_files_parse output) = true ↔
      ∀ entry ∈ pySplit (pyStrip output) ("\n"),
        sizeSearch (pyReplace entry ("\r") ("")).toList 0 ≠ none) ∧
    ((∃ entry ∈ pySplit (pyStrip output) ("\n"),
        sizeSearch (pyReplace entry ("\r") ("")).toList 0 = none) →
      MegaCmdHelper.list_all_files_parse output = Except.error PyError.attributeError) :=
  list_all_files_lines_characterization (pySplit (pyStrip output) ("\n"))

/-- Witness for C10: the line `movie (5 MB)` has no fractional part in its
size annotation, so the whole listing parse aborts with the unhandled
`AttributeError`. -/
theorem C10_lister_totality_witness :
    MegaCmdHelper.list_all_files_parse ("movie (5 MB)")
      = Except.error PyError.attributeError :=
  (C10_lister_totality ("movie (5 MB)")).2 (by decide)

set_option maxHeartbeats 1600000 in
/-- Claim C2 (confirmed): whenever a poll of the quota-aware path reports
the current item's state as `RETRYING`, the loop kills the transfer agent's
background server, invokes the IP Rotation Gateway, and restarts the server
— in that order — before polling continues (first conjunct, one loop
iteration for an arbitrary such poll); in particular, when three successive
polls report `RETRYING` and the follow-up `--show-completed` query reports
`COMPLETED`, the gateway is invoked exactly three times, each invocation
between a server kill and a server restart, and the transfer resolves to
`NO_ERROR` (second conjunct). -/
theorem C2_quota_retry (filename : String) (status : DownloadStatus) (out : String)
    (ke se : Int) (ko so : String) (env2 : PexpectBehavior)
    (rest : List PollStep) (r : String × String × String)
    (hfind : MegaCmdHelper.find_matching_record filename
        (MegaCmdHelper.parse_mega_transfers_output out) = some r)
    (hstate : r.2.1 = "RETRYING") :
    MegaCmdHelper.download_poll_loop filename status
        ({ transfersEnv := okProc 0 out, killEnv := okProc ke ko, ipOk := true,
           startEnv := okProc se so, showCompletedEnv := env2 } :: rest)
      = (MegaCmdHelper.download_poll_loop filename status rest).after
          [AgentEvent.killServer, AgentEvent.changeIp, AgentEvent.startServer] ∧
    MegaCmdHelper.download_poll_loop ("movie.mkv") DownloadStatus.DOWNLOAD_FAILED
        [retryStep, retryStep, retryStep, completeStep completedOut]
      = LoopResult.finished DownloadStatus.NO_ERROR
          [.killServer, .changeIp, .startServer, .killServer, .changeIp, .startServer,
           .killServer, .changeIp, .startServer] := by
  refine ⟨?_, by decide⟩
  have hne : MegaCmdHelper.parse_mega_transfers_output out ≠ [] := by
    intro h0
    rw [MegaCmdHelper.find_matching_record, h0] at hfind
    simp at hfind
  simp only [MegaCmdHelper.download_poll_loop, okProc, SpawnHelper.spawn]
  simp only [ne_eq, Option.some.injEq, not_true_eq_false, if_false, hne, if_true,
    reduceCtorEq]
  rw [hfind]
  simp only [hstate]
  simp [MegaCmdHelper.kill_mega_cmd_server, MegaCmdHelper.start_mega_cmd_server,
    SpawnHelper.spawn, okProc, change_ip]

/-- Witness for C2 at a concrete `RETRYING` poll: one rotation cycle is
performed and polling continues on the remaining trace. -/
theorem C2_quota_retry_witness :
    MegaCmdHelper.download_poll_loop ("movie.mkv") DownloadStatus.DOWNLOAD_FAILED
        ({ transfersEnv := okProc 0 retryOut, killEnv := okProc 0 (""), ipOk := true,
           startEnv := okProc 0 (""), showCompletedEnv := okProc 0 ("") } :: [])
      = (MegaCmdHelper.download_poll_loop ("movie.mkv") DownloadStatus.DOWNLOAD_FAILED []).after
          [AgentEvent.killServer, AgentEvent.changeIp, AgentEvent.startServer] :=
  (C2_quota_retry ("movie.mkv") DownloadStatus.DOWNLOAD_FAILED retryOut 0 0 ("") ("")
    (okProc 0 ("")) [] ("/tmp/t/movie.mkv", "RETRYING", "10.0%") (by decide) rfl).1

set_option maxHeartbeats 1600000 in
/-- If no consumed poll step carries a `RETRYING` signal for `filename`,
the polling loop performs no kill / IP-change / restart action at all. -/
theorem no_retry_no_events (filename : String) :
    ∀ (polls : List PollStep) (status : DownloadStatus),
      (∀ step ∈ polls, noRetrySignal filename step = true) →
      (MegaCmdHelper.download_poll_loop filename status polls).events = [] := by
  intro polls
  induction polls with
  | nil => intro status hall; rfl
  | cons step rest ih =>
    intro status hall
    have hallr : ∀ st ∈ rest, noRetrySignal filename st = true :=
      fun st hst => hall st (List.mem_cons_of_mem step hst)
    obtain ⟨tEnv, kEnv, ipOk, sEnv, cEnv⟩ := step
    cases tEnv with
    | raisesExn => rfl
    | proc p =>
      rcases p with ⟨rr, ex⟩
      cases rr with
      | timeoutExn => rfl
      | otherExn => rfl
      | ok out =>
        simp only [MegaCmdHelper.download_poll_loop, SpawnHelper.spawn]
        by_cases hex : ex = some 0
        · subst hex
          rw [if_neg (by simp)]
          by_cases hinf : MegaCmdHelper.parse_mega_transfers_output out = []
          · rw [if_neg (not_not_intro hinf)]
            by_cases hstr : pyReplace (pyReplace out ("\r") ("")) ("\n") ("") = ""
            · rw [if_pos hstr]
              cases cEnv with
              | raisesExn => rfl
              | proc p2 =>
                rcases p2 with ⟨rr2, ex2⟩
                cases rr2 with
                | timeoutExn => exact ih status hallr
                | otherExn => exact ih status hallr
                | ok out2 =>
                  simp only [SpawnHelper.spawn]
                  by_cases hex2 : ex2 = some 0
                  · subst hex2
                    rw [if_neg (by simp)]
                    cases hscan : MegaCmdHelper.scan_completed filename
                        (MegaCmdHelper.parse_mega_transfers_output out2) with
                    | none => rfl
                    | some b =>
                      cases b with
                      | true => rfl
                      | false => exact ih status hallr
                  · rw [if_pos hex2]
                    rfl
            · rw [if_neg hstr]
              rfl
          · rw [if_pos hinf]
            cases hfind : MegaCmdHelper.find_matching_record filename
                (MegaCmdHelper.parse_mega_transfers_output out) with
            | none => exact ih status hallr
            | some r =>
              have hthis := hall
                ⟨PexpectBehavior.proc ⟨ReadResult.ok out, some 0⟩, kEnv, ipOk, sEnv, cEnv⟩
                (List.mem_cons_self _ _)
              unfold noRetrySignal at hthis
              dsimp only at hthis
              rw [hfind] at hthis
              dsimp only at hthis
              have hnr : ¬(r.2.1 = "RETRYING") := by
                intro hcontra
                rw [hcontra] at hthis
                exact absurd hthis (by decide)
              dsimp only
              rw [if_neg hnr]
              exact ih status hallr
        · rw [if_pos hex]
          rfl

/-- Lift of `no_retry_no_events` through `download_file_from_folder`. -/
theorem no_retry_no_events_file (filename : String) (getEnv : PexpectBehavior)
    (polls : List PollStep)
    (hall : ∀ step ∈ polls, noRetrySignal filename step = true) :
    (MegaCmdHelper.download_file_from_folder filename getEnv polls).events = [] := by
  cases getEnv with
  | raisesExn => rfl
  | proc p =>
    rcases p with ⟨rr, ex⟩
    cases rr with
    | timeoutExn => rfl
    | otherExn => rfl
    | ok out =>
      simp only [MegaCmdHelper.download_file_from_folder, SpawnHelper.spawn]
      by_cases hex : ex = some 0
      · rw [if_pos hex]
        exact no_retry_no_events filename polls DownloadStatus.DOWNLOAD_FAILED hall
      · rw [if_neg hex]
        rfl

/-- Counterexample for C1: a folder run of two successfully-downloaded
60 MB items — whose cumulative size 120 MB crosses the would-be threshold
of 100 MB at the second item — performs *no* IP rotation at all (the claim
requires exactly one, immediately before the second item): the code keeps
`total_downloaded_data` only for a log line and never consults any
threshold. -/
theorem C1_counterexample :
    (MegaDownloadFolder.download_files_loop thresholdItems 0).isFinished = true ∧
    (MegaDownloadFolder.download_files_loop thresholdItems 0).statuses
      = [("l/f1.mkv", DownloadStatus.NO_ERROR), ("l/f2.mkv", DownloadStatus.NO_ERROR)] ∧
    (MegaDownloadFolder.download_files_loop thresholdItems 0).events = [] ∧
    ((60 : ℚ) + 60 ≥ 100) := by
  refine ⟨by decide, by decide, by decide, by norm_num⟩

/-- Claim C1 (corrected): folder mode has no threshold-based proactive
rotation.  Every work item goes through the quota-aware polling path; when
no poll of any item reports `RETRYING`, a completed folder run performs no
kill / IP-change / restart action whatsoever, and the running
`total_downloaded_data` (used only for a log line, never reset, never
compared with a threshold) ends at its initial value plus the sizes of the
items whose download resolved to `NO_ERROR`. -/
theorem C1_no_threshold_rotation (itemruns : List ((String × String × ℚ) × ItemRun))
    (total0 : ℚ) (sts : List (String × DownloadStatus)) (evs : List AgentEvent) (tot : ℚ)
    (hnr : ∀ ir ∈ itemruns, ∀ step ∈ ir.2.polls, noRetrySignal ir.1.2.1 step = true)
    (hrun : MegaDownloadFolder.download_files_loop itemruns total0
        = FolderRunResult.finished sts evs tot) :
    evs = [] ∧ tot = total0 + no_error_total itemruns sts := by
  induction itemruns generalizing total0 sts evs tot with
  | nil =>
    simp only [MegaDownloadFolder.download_files_loop] at hrun
    injection hrun with h1 h2 h3
    subst h1; subst h2; subst h3
    simp [no_error_total]
  | cons ir rest ih =>
    obtain ⟨item, run⟩ := ir
    simp only [MegaDownloadFolder.download_files_loop] at hrun
    cases hd : MegaCmdHelper.download_file_from_folder item.2.1 run.getEnv run.polls with
    | raised e evs1 => rw [hd] at hrun; simp at hrun
    | outOfTrace evs1 => rw [hd] at hrun; simp at hrun
    | finished st evs1 =>
      rw [hd] at hrun
      dsimp only at hrun
      cases hrec : MegaDownloadFolder.download_files_loop rest
          (if st = DownloadStatus.NO_ERROR then total0 + item.2.2 else total0) with
      | raised e2 evs2 => rw [hrec] at hrun; simp at hrun
      | outOfTrace evs2 => rw [hrec] at hrun; simp at hrun
      | finished sts2 evs2 tot2 =>
        rw [hrec] at hrun
        dsimp only at hrun
        injection hrun with h1 h2 h3
        subst h1; subst h2; subst h3
        have hev1 : evs1 = [] := by
          have h := no_retry_no_events_file item.2.1 run.getEnv run.polls
            (hnr (item, run) (List.mem_cons_self _ _))
          rw [hd] at h
          exact h
        obtain ⟨hev2, htot2⟩ := ih
          (if st = DownloadStatus.NO_ERROR then total0 + item.2.2 else total0) sts2 evs2 tot2
          (fun ir2 hir2 => hnr ir2 (List.mem_cons_of_mem _ hir2)) hrec
        refine ⟨by rw [hev1, hev2]; rfl, ?_⟩
        rw [htot2]
        by_cases hst : st = DownloadStatus.NO_ERROR
        · subst hst
          simp [no_error_total]
          try ring
        · simp only [no_error_total, if_neg hst]
          ring

/-- Witness for C1 on the two-items scenario: no events and the total is
the sum of the successfully downloaded sizes. -/
theorem C1_no_threshold_rotation_witness :
    ([] : List AgentEvent) = [] ∧
    ((0 : ℚ) + 60 + 60) = 0 + no_error_total thresholdItems
        [("l/f1.mkv", DownloadStatus.NO_ERROR), ("l/f2.mkv", DownloadStatus.NO_ERROR)] :=
  C1_no_threshold_rotation thresholdItems 0
    [("l/f1.mkv", DownloadStatus.NO_ERROR), ("l/f2.mkv", DownloadStatus.NO_ERROR)]
    [] ((0 : ℚ) + 60 + 60) (by decide) rfl
